import Mathlib

/-!
Verification development for `src/upnp_device.cc` of gmrender-resurrect:
the device-side UPnP request dispatcher (SOAP action invocation, state
variable query, event subscription), the change-event collector
bracketing, the startup bind-retry loop of `initialize_device`, and the
device-descriptor generation.

The embedding is shallow: each C function of the file becomes a pure Lean
function over an explicit state record.  Handlers (application callbacks,
which live outside this file) are modelled as finite sequences of calls
into the request/response API that this file exposes to them
(`upnp_add_response`, `upnp_set_error`); per the design, a handler
capability has signature `(request/response context) -> status`, so the
value a callback returns to the dispatcher is the status it left on the
context.  Engine-side effects (libupnp) are modelled as explicit inputs:
the success/failure of `UpnpAddToActionResponse`, `UpnpAcceptSubscription`
and `UpnpInit2` are parameters, and calls such as collector `Start` /
`Finish`, logging and sleeping are recorded in output traces.
-/

namespace UpnpDevice

/- ---------------------------------------------------------------- -/
/- Error codes (from libupnp upnp.h, as used by upnp_device.cc).    -/
/- ---------------------------------------------------------------- -/

/-- libupnp success code. -/
def UPNP_E_SUCCESS : Int := 0

/-- SOAP fault 402, invalid arguments. -/
def UPNP_SOAP_E_INVALID_ARGS : Int := 402

/-- SOAP fault 404, invalid variable. -/
def UPNP_SOAP_E_INVALID_VAR : Int := 404

/-- SOAP fault 501, action failed. -/
def UPNP_SOAP_E_ACTION_FAILED : Int := 501

/- ---------------------------------------------------------------- -/
/- Data model: requests, services, devices.                          -/
/- ---------------------------------------------------------------- -/

/-- The IXML action-result document of an action request: the response
head (action name, service type namespace) plus the list of (key, value)
arguments added so far.  `UpnpMakeActionResponse(name, type, 0, NULL)`
is the document with `args = []`. -/
structure ActionDoc where
  actionName : String
  serviceType : String
  args : List (String × String)
deriving Repr, DecidableEq

/-- The mutable `UpnpActionRequest` object handed to
`handle_action_request`: identifying fields plus the mutable
action-result document, error code and error string. -/
structure ActionRequest where
  serviceID : String
  actionName : String
  devUDN : String
  socket : Int
  actionResult : Option ActionDoc
  errCode : Int
  errStr : Option String
deriving Repr, DecidableEq

/-- One API call a bound handler can make on its request/response
context while it runs.  `addResponse` carries the outcome of the
engine-side `UpnpAddToActionResponse` call (`none` = `UPNP_E_SUCCESS`,
`some msg` = failure with engine error message `msg`);
`setError` is a call to `upnp_set_error` with the handler-supplied
error code and formatted message. -/
inductive HandlerOp where
  | addResponse (key value : String) (engineFail : Option String)
  | setError (error_code : Int) (msg : String)
deriving Repr, DecidableEq

/-- `struct action`: an action name and its handler capability.
The callback is optional (`NULL` handlers are legal) and is modelled
as the sequence of request/response API calls it performs. -/
structure Action where
  name : String
  callback : Option (List HandlerOp)
deriving Repr, DecidableEq

/-- `struct service` (from upnp_service.h), restricted to the fields
`upnp_device.cc` reads: identity, URLs, the variable container
(an indexed list of (name, value) pairs), whether a change-event
collector (`last_change`) is attached, and the action list. -/
structure Service where
  service_id : String
  service_type : String
  scpd_url : String
  control_url : String
  event_url : String
  variable_container : List (String × String)
  last_change : Bool
  actions : List Action
deriving Repr, DecidableEq

/-- `struct icon` of the device descriptor. -/
structure Icon where
  width : Int
  height : Int
  depth : Int
  url : String
  mimetype : String
deriving Repr, DecidableEq

/-- `struct upnp_device_descriptor`, restricted to the fields
`upnp_device.cc` reads.  `icons = none` models a NULL icon array. -/
structure DeviceDescriptor where
  device_type : String
  presentation_url : String
  friendly_name : String
  manufacturer : String
  manufacturer_url : String
  model_description : String
  model_name : String
  model_number : String
  model_url : String
  udn : String
  icons : Option (List Icon)
  services : List Service
deriving Repr, DecidableEq

/-- `struct action_event`: the ephemeral request/response context built
at dispatch entry — the request object, the mutable status flag
(0 until the first error) and the service back-reference. -/
structure ActionEvent where
  request : ActionRequest
  status : Int
  service : Service
deriving Repr, DecidableEq

/-- Log lines emitted by the dispatcher, with the fields the C code
interpolates into each message. -/
inductive LogEntry where
  | setErrorLog (msg : String) (error_code : Int)
  | unknownAction (actionName serviceID : String)
  | noHandler (errCode socket : Int) (errStr : Option String)
      (actionName devUDN serviceID : String)
deriving Repr, DecidableEq

/- ---------------------------------------------------------------- -/
/- Registry lookups.                                                 -/
/- ---------------------------------------------------------------- -/

/-- `find_service`: linear scan of the device descriptor's service list
for the first service whose `service_id` equals the requested id. -/
def find_service (device_def : DeviceDescriptor) (service_id : String) :
    Option Service :=
  device_def.services.find? (fun s => s.service_id == service_id)

/-- Modelled from the spec: `find_action` is defined in
`upnp_service.cc`, which is not part of the sources here; only its
caller `handle_action_request` is.  Per the design, the action registry
is a per-service linear scan by action name, and a lookup on an absent
service fails (returns NULL) so that no handler is ever invoked for an
unknown service. -/
def find_action (event_service : Option Service) (action_name : String) :
    Option Action :=
  match event_service with
  | none => none
  | some srv => srv.actions.find? (fun a => a.name == action_name)

/- ---------------------------------------------------------------- -/
/- Request/response API exposed to handlers.                         -/
/- ---------------------------------------------------------------- -/

/-- `upnp_add_response(event, key, value)`: a no-op returning -1 when the
event status already records an error; otherwise appends (key, value) to
the action-result document (creating it from the action name and service
type when absent).  If the engine-side `UpnpAddToActionResponse` call
fails, the document is dropped and a fixed "action failed" fault with
the engine's error message is recorded, returning -1. -/
def upnp_add_response (event : ActionEvent) (key value : String)
    (engineFail : Option String) : ActionEvent × Int :=
  if event.status ≠ 0 then
    (event, -1)
  else
    match engineFail with
    | some engineMsg =>
        ({ event with request := { event.request with
             actionResult := none,
             errCode := UPNP_SOAP_E_ACTION_FAILED,
             errStr := some engineMsg } }, -1)
    | none =>
        let doc := event.request.actionResult.getD
          { actionName := event.request.actionName,
            serviceType := event.service.service_type, args := [] }
        ({ event with request := { event.request with
             actionResult := some { doc with args := doc.args ++ [(key, value)] } } },
         0)

/-- `upnp_set_error(event, error_code, format, ...)`: sets the event
status to -1, clears the action-result document, sets the error code on
the request to the fixed `UPNP_SOAP_E_ACTION_FAILED`, stores the
formatted message as the error string, and logs the message together
with the `error_code` argument (which is used only in the log line). -/
def upnp_set_error (event : ActionEvent) (error_code : Int) (msg : String) :
    ActionEvent × LogEntry :=
  ({ event with
      status := -1,
      request := { event.request with
        actionResult := none,
        errCode := UPNP_SOAP_E_ACTION_FAILED,
        errStr := some msg } },
   LogEntry.setErrorLog msg error_code)

/-- One step of a handler run: perform one API call, accumulating logs. -/
def handlerStep (acc : ActionEvent × List LogEntry) (op : HandlerOp) :
    ActionEvent × List LogEntry :=
  match op with
  | .addResponse key value engineFail =>
      ((upnp_add_response acc.1 key value engineFail).1, acc.2)
  | .setError error_code msg =>
      let r := upnp_set_error acc.1 error_code msg
      (r.1, acc.2 ++ [r.2])

/-- Modelled from the spec: the bound handlers themselves live in other
translation units; the design gives them the signature
`(request/response context) -> status` and they interact with the
context through the API above.  Running a handler folds its API calls
over the context; the status it leaves there is the status it returns. -/
def runHandler (ops : List HandlerOp) (event : ActionEvent) :
    ActionEvent × List LogEntry :=
  ops.foldl handlerStep (event, [])

/- ---------------------------------------------------------------- -/
/- Action dispatch.                                                  -/
/- ---------------------------------------------------------------- -/

/-- Observable side calls `handle_action_request` makes, in order:
the change-event collector `Start`/`Finish` bracket and the handler
invocation. -/
inductive Ev where
  | collectorStart
  | handlerInvoked
  | collectorFinish
deriving Repr, DecidableEq

/-- Signed depth contribution of one dispatcher side call to the
change-event collector's nesting depth. -/
def evDelta : Ev → Int
  | .collectorStart => 1
  | .collectorFinish => -1
  | .handlerInvoked => 0

/-- Net change a trace of dispatcher side calls applies to the
collector's nesting depth. -/
def depthDelta (evs : List Ev) : Int :=
  (evs.map evDelta).sum

/-- Result of one `handle_action_request` dispatch: the final state of
the request object, the C return value, the trace of collector/handler
side calls, and the log lines. -/
structure ARResult where
  request : ActionRequest
  retval : Int
  events : List Ev
  logs : List LogEntry
deriving Repr, DecidableEq

/-- The `event_action == NULL` branch of `handle_action_request`:
log "Unknown action", clear the action result, set error code 401 and
return -1. -/
def unknown_action_result (ar_event : ActionRequest) : ARResult :=
  { request := { ar_event with actionResult := none, errCode := 401 },
    retval := -1,
    events := [],
    logs := [LogEntry.unknownAction ar_event.actionName ar_event.serviceID] }

/-- `handle_action_request`: look up the service by id and the action by
name (a NULL service makes the action lookup fail, so both unknown
service and unknown action land in the 401 branch).  If the action is
found, bracket the invocation with collector `Start`/`Finish` when the
service has a change-event collector; invoke the bound callback on a
fresh context if there is one, normalising the result (success code when
the callback returns 0; synthesised empty response document when none is
present); with no callback bound, log full diagnostics and set the
success code.  Returns 0 whenever the action was found. -/
def handle_action_request (priv : DeviceDescriptor)
    (ar_event : ActionRequest) : ARResult :=
  match find_service priv ar_event.serviceID with
  | none => unknown_action_result ar_event
  | some event_service =>
    match find_action (some event_service) ar_event.actionName with
    | none => unknown_action_result ar_event
    | some event_action =>
      let startEvs : List Ev :=
        if event_service.last_change then [Ev.collectorStart] else []
      let finishEvs : List Ev :=
        if event_service.last_change then [Ev.collectorFinish] else []
      match event_action.callback with
      | some ops =>
          let event0 : ActionEvent :=
            { request := ar_event, status := 0, service := event_service }
          let event1 := (runHandler ops event0).1
          let hlogs := (runHandler ops event0).2
          let rc := event1.status
          let event2 :=
            if rc = 0 then
              { event1 with request :=
                  { event1.request with errCode := UPNP_E_SUCCESS } }
            else event1
          let event3 :=
            match event2.request.actionResult with
            | none =>
                { event2 with request := { event2.request with
                    actionResult := some
                      { actionName := ar_event.actionName,
                        serviceType := event_service.service_type,
                        args := [] } } }
            | some _ => event2
          { request := event3.request,
            retval := 0,
            events := startEvs ++ [Ev.handlerInvoked] ++ finishEvs,
            logs := hlogs }
      | none =>
          { request := { ar_event with errCode := UPNP_E_SUCCESS },
            retval := 0,
            events := startEvs ++ finishEvs,
            logs := [LogEntry.noHandler ar_event.errCode ar_event.socket
              ar_event.errStr ar_event.actionName ar_event.devUDN
              ar_event.serviceID] }

/- ---------------------------------------------------------------- -/
/- Variable query.                                                   -/
/- ---------------------------------------------------------------- -/

/-- The mutable `UpnpStateVarRequest` object: the queried service id and
variable name, plus the mutable error code and current-value slot. -/
structure StateVarRequest where
  serviceID : String
  stateVarName : String
  errCode : Int
  currentVal : Option String
deriving Repr, DecidableEq

/-- `handle_var_request`: unknown service sets error code 402 and
returns -1, touching nothing else.  Otherwise linear-scan the variable
container for the first name match under the service lock; store the
(duplicated) value — NULL when absent — as the current value, set the
error code to success or 404 accordingly, and return 0. -/
def handle_var_request (priv : DeviceDescriptor) (event : StateVarRequest) :
    StateVarRequest × Int :=
  match find_service priv event.serviceID with
  | none =>
      ({ event with errCode := UPNP_SOAP_E_INVALID_ARGS }, -1)
  | some srv =>
      let result :=
        (srv.variable_container.find?
          (fun nv => nv.1 == event.stateVarName)).map (fun nv => nv.2)
      let errCode :=
        match result with
        | none => UPNP_SOAP_E_INVALID_VAR
        | some _ => UPNP_E_SUCCESS
      ({ event with currentVal := result, errCode := errCode }, 0)

/- ---------------------------------------------------------------- -/
/- Subscription request.                                             -/
/- ---------------------------------------------------------------- -/

/-- The `UpnpSubscriptionRequest` object: service id, device UDN and
subscription id. -/
structure SubscriptionRequest where
  serviceId : String
  udn : String
  sid : String
deriving Repr, DecidableEq

/-- The arguments `handle_subscription_request` hands to the engine's
`UpnpAcceptSubscription`. -/
structure AcceptedSubscription where
  udn : String
  serviceId : String
  varNames : List String
  varValues : List String
  varCount : Nat
  sid : String
deriving Repr, DecidableEq

/-- The source's `strncmp("A_ARG_TYPE_", name.c_str(),
strlen("A_ARG_TYPE_")) == 0` test: `true` exactly when `name` begins
with the reserved prefix, compared characterwise. -/
def argTypePrefixed (name : String) : Bool :=
  List.isPrefixOf "A_ARG_TYPE_".data name.data

/-- The initial-state snapshot loop of `handle_subscription_request`:
every variable of the container is added to the LastChange builder
except the one literally named "LastChange" and those whose name starts
with "A_ARG_TYPE_" (the `strncmp` prefix test of the source). -/
def eventedSnapshot (vars : List (String × String)) :
    List (String × String) :=
  vars.filter (fun nv =>
    (nv.1 != "LastChange") && !(argTypePrefixed nv.1))

/-- `handle_subscription_request`: unknown service returns -1 with no
acceptance.  Otherwise, under the device and service locks, build one
aggregated change document from the evented snapshot, escape it, and
accept the subscription declaring exactly the single evented variable
"LastChange" with the escaped document as its initial value.  The
LastChange builder serialisation (`UPnPLastChangeBuilder::toXML`, from
upnp_service.cc) and `xmlescape` (xmlescape.cc) are outside this file
and are passed in as the functions `toXML` and `esc`; `engineRC` is the
result of the engine's `UpnpAcceptSubscription` call, whose failure is
logged and reported as -1. -/
def handle_subscription_request
    (toXML : List (String × String) → String) (esc : String → String)
    (priv : DeviceDescriptor) (sr : SubscriptionRequest) (engineRC : Int) :
    Option AcceptedSubscription × Int :=
  match find_service priv sr.serviceId with
  | none => (none, -1)
  | some srv =>
      let snapshot := eventedSnapshot srv.variable_container
      let escaped_xml := esc (toXML snapshot)
      let acc : AcceptedSubscription :=
        { udn := sr.udn, serviceId := sr.serviceId,
          varNames := ["LastChange"], varValues := [escaped_xml],
          varCount := 1, sid := sr.sid }
      (some acc, if engineRC = UPNP_E_SUCCESS then 0 else -1)

/- ---------------------------------------------------------------- -/
/- Device lifecycle: the bind-retry loop of initialize_device.       -/
/- ---------------------------------------------------------------- -/

/-- Engine responses consumed by `initialize_device`: whether the n-th
`UpnpInit2` call succeeds, and the outcomes of the follow-up engine
calls. -/
structure EngineEnv where
  upnpInit2 : Nat → Bool
  enableWebserverOk : Bool
  registerCallbacksOk : Bool
  addVirtualDirOk : Bool
  registerRootDeviceOk : Bool
  sendAdvertisementOk : Bool

/-- Observable steps of `initialize_device`, in order. -/
inductive InitStep where
  | attemptInit (n : Nat)
  | sleepMs (ms : Nat)
  | enableWebserver
  | addVirtualDir
  | registerRootDevice
  | sendAdvertisement
deriving Repr, DecidableEq

/-- The retry loop `while (rc != UPNP_E_SUCCESS && retries_left--)`:
with `retries_left` retries left and the previous attempt's success in
`rcOk`, sleep `kRetryTimeMs` (1000 ms) and reattempt `UpnpInit2` until
success or exhaustion.  Returns the step trace and the final success. -/
def bindRetryGo (upnpInit2 : Nat → Bool) (retries_left idx : Nat)
    (rcOk : Bool) : List InitStep × Bool :=
  if rcOk then ([], true)
  else
    match retries_left with
    | 0 => ([], false)
    | n + 1 =>
        let ok := upnpInit2 idx
        let rest := bindRetryGo upnpInit2 n (idx + 1) ok
        (InitStep.sleepMs 1000 :: InitStep.attemptInit idx :: rest.1,
         rest.2)

/-- `initialize_device`: one initial `UpnpInit2` attempt, then the retry
loop with `retries_left = 60`; on exhaustion log and return FALSE
(no web server enabling, no root-device registration).  On success,
enable the web server, register callbacks, add the virtual dir,
register the root device and send the initial advertisement, failing
fast on each engine error.  Returns the step trace and the gboolean
result. -/
def initialize_device (env : EngineEnv) : List InitStep × Bool :=
  let rc0 := env.upnpInit2 0
  let loop := bindRetryGo env.upnpInit2 60 1 rc0
  let steps0 := InitStep.attemptInit 0 :: loop.1
  if !loop.2 then (steps0, false)
  else if !env.enableWebserverOk then
    (steps0 ++ [InitStep.enableWebserver], false)
  else if !env.registerCallbacksOk then
    (steps0 ++ [InitStep.enableWebserver], false)
  else if !env.addVirtualDirOk then
    (steps0 ++ [InitStep.enableWebserver, InitStep.addVirtualDir], false)
  else if !env.registerRootDeviceOk then
    (steps0 ++ [InitStep.enableWebserver, InitStep.addVirtualDir,
      InitStep.registerRootDevice], false)
  else if !env.sendAdvertisementOk then
    (steps0 ++ [InitStep.enableWebserver, InitStep.addVirtualDir,
      InitStep.registerRootDevice, InitStep.sendAdvertisement], false)
  else
    (steps0 ++ [InitStep.enableWebserver, InitStep.addVirtualDir,
      InitStep.registerRootDevice, InitStep.sendAdvertisement], true)

/-- Recognise an `UpnpInit2` attempt in a step trace. -/
def isAttempt : InitStep → Bool
  | .attemptInit _ => true
  | _ => false

/-- Number of `UpnpInit2` attempts in a step trace. -/
def numAttempts (steps : List InitStep) : Nat :=
  (steps.filter isAttempt).length

/-- The shape the retry loop's trace always has: `k` rounds of a
1000 ms sleep followed by the next `UpnpInit2` attempt. -/
def retryTrace : Nat → Nat → List InitStep
  | 0, _ => []
  | k + 1, idx =>
      InitStep.sleepMs 1000 :: InitStep.attemptInit idx ::
        retryTrace k (idx + 1)

/- ---------------------------------------------------------------- -/
/- Device descriptor generation.                                     -/
/- ---------------------------------------------------------------- -/

/-- An XML element as built through xmldoc.h's `XMLElement` interface:
a tag, an optional namespace attribute (root only; "" when absent), the
text set by `SetValue`, and child elements in `AddElement` order. -/
inductive XMLElem where
  | mk (tag : String) (ns : String) (text : String)
      (children : List XMLElem)
deriving Repr

/-- Tag of an element. -/
def XMLElem.tag : XMLElem → String
  | .mk t _ _ _ => t

/-- Namespace attribute of an element ("" when absent). -/
def XMLElem.ns : XMLElem → String
  | .mk _ n _ _ => n

/-- Text value of an element. -/
def XMLElem.text : XMLElem → String
  | .mk _ _ v _ => v

/-- Children of an element, in the order they were added. -/
def XMLElem.children : XMLElem → List XMLElem
  | .mk _ _ _ cs => cs

/-- The element with empty tag, used as lookup default. -/
def emptyElem : XMLElem := .mk "" "" "" []

mutual

/-- Modelled from the spec: `XMLDoc::ToXMLString` lives in xmldoc.cc,
which is not part of the sources here.  Serialisation is a fixed-schema,
deterministic function of the element tree: tag, optional xmlns
attribute, text, children in order, closing tag. -/
def elemToString : XMLElem → String
  | .mk tag ns text cs =>
      "<" ++ tag ++
        (if ns = "" then "" else " xmlns=\"" ++ ns ++ "\"") ++ ">" ++
        text ++ elemsToString cs ++ "</" ++ tag ++ ">"

/-- Serialise a child list in order. -/
def elemsToString : List XMLElem → String
  | [] => ""
  | c :: cs => elemToString c ++ elemsToString cs

end

/-- `add_specversion`: the specVersion element with major and minor. -/
def add_specversion (major minor : Int) : XMLElem :=
  .mk "specVersion" "" ""
    [.mk "major" "" (toString major) [],
     .mk "minor" "" (toString minor) []]

/-- One icon element: mimetype, width, height, depth, url, in source
order. -/
def desc_icon (icon_entry : Icon) : XMLElem :=
  .mk "icon" "" ""
    [.mk "mimetype" "" icon_entry.mimetype [],
     .mk "width" "" (toString icon_entry.width) [],
     .mk "height" "" (toString icon_entry.height) [],
     .mk "depth" "" (toString icon_entry.depth) [],
     .mk "url" "" icon_entry.url []]

/-- `add_desc_iconlist`: nothing when the icon array is NULL; otherwise
one iconList element with an icon element per entry. -/
def add_desc_iconlist (icons : Option (List Icon)) : List XMLElem :=
  match icons with
  | none => []
  | some icons => [.mk "iconList" "" "" (icons.map desc_icon)]

/-- One service element: serviceType, serviceId, SCPDURL, controlURL,
eventSubURL, in source order. -/
def desc_service (srv : Service) : XMLElem :=
  .mk "service" "" ""
    [.mk "serviceType" "" srv.service_type [],
     .mk "serviceId" "" srv.service_id [],
     .mk "SCPDURL" "" srv.scpd_url [],
     .mk "controlURL" "" srv.control_url [],
     .mk "eventSubURL" "" srv.event_url []]

/-- `add_desc_servicelist`: the serviceList element with a service
element per registered service. -/
def add_desc_servicelist (services : List Service) : List XMLElem :=
  [.mk "serviceList" "" "" (services.map desc_service)]

/-- The element tree `upnp_create_device_desc` builds: root in the
device-1-0 namespace, specVersion 1.0, then the device element with its
fields in the fixed source order, the optional icon list and the
service list. -/
def upnp_create_device_desc_tree (device_def : DeviceDescriptor) :
    XMLElem :=
  .mk "root" "urn:schemas-upnp-org:device-1-0" ""
    [add_specversion 1 0,
     .mk "device" "" ""
       ([.mk "deviceType" "" device_def.device_type [],
         .mk "presentationURL" "" device_def.presentation_url [],
         .mk "friendlyName" "" device_def.friendly_name [],
         .mk "manufacturer" "" device_def.manufacturer [],
         .mk "manufacturerURL" "" device_def.manufacturer_url [],
         .mk "modelDescription" "" device_def.model_description [],
         .mk "modelName" "" device_def.model_name [],
         .mk "modelNumber" "" device_def.model_number [],
         .mk "modelURL" "" device_def.model_url [],
         .mk "UDN" "" device_def.udn []]
        ++ add_desc_iconlist device_def.icons
        ++ add_desc_servicelist device_def.services)]

/-- `upnp_create_device_desc`: serialise the descriptor tree. -/
def upnp_create_device_desc (device_def : DeviceDescriptor) : String :=
  elemToString (upnp_create_device_desc_tree device_def)

/- ---------------------------------------------------------------- -/
/- The error invariant of the handler API.                           -/
/- ---------------------------------------------------------------- -/

/-- The invariant the request/response API maintains on an action
event: once the status flag records an error, the response document is
cleared and the error code on the request is the fixed action-failed
fault (501). -/
def errInv (e : ActionEvent) : Prop :=
  e.status ≠ 0 →
    e.request.actionResult = none ∧
      e.request.errCode = UPNP_SOAP_E_ACTION_FAILED

/- ---------------------------------------------------------------- -/
/- Concrete fixtures for witnesses and counterexamples.              -/
/- ---------------------------------------------------------------- -/

/-- A concrete rendering-control-like service: evented variables plus
the LastChange carrier and an argument-type variable, a change-event
collector, and three actions (one trivially succeeding handler, one
handler that reports error 714, one action with no handler bound). -/
def svcW : Service :=
  { service_id := "urn:upnp-org:serviceId:RenderingControl",
    service_type := "urn:schemas-upnp-org:service:RenderingControl:1",
    scpd_url := "/upnp/rendercontrolSCPD.xml",
    control_url := "/upnp/control/rendercontrol1",
    event_url := "/upnp/event/rendercontrol1",
    variable_container :=
      [("Volume", "10"), ("Mute", "false"), ("LastChange", ""),
       ("A_ARG_TYPE_Channel", "Master")],
    last_change := true,
    actions :=
      [{ name := "Play", callback := some [] },
       { name := "Fail",
         callback := some [HandlerOp.setError 714 "no media"] },
       { name := "Orphan", callback := none }] }

/-- A concrete one-service device descriptor. -/
def devW : DeviceDescriptor :=
  { device_type := "urn:schemas-upnp-org:device:MediaRenderer:1",
    presentation_url := "/",
    friendly_name := "GMediaRender",
    manufacturer := "Ivo Clarysse, Henner Zeller",
    manufacturer_url := "http://github.com/hzeller/gmrender-resurrect",
    model_description := "Resource to play standard media formats",
    model_name := "gmrender",
    model_number := "2",
    model_url := "http://github.com/hzeller/gmrender-resurrect",
    udn := "uuid:gmrender-1",
    icons := some
      [{ width := 64, height := 64, depth := 24,
         url := "/upnp/grender-64x64.png", mimetype := "image/png" }],
    services := [svcW] }

/-- A fresh incoming action request for action `aname` on `svcW`. -/
def arW (aname : String) : ActionRequest :=
  { serviceID := "urn:upnp-org:serviceId:RenderingControl",
    actionName := aname, devUDN := "uuid:gmrender-1", socket := 7,
    actionResult := none, errCode := 0, errStr := none }

/-- A fresh incoming action request naming a service `devW` lacks. -/
def arNoSvcW : ActionRequest :=
  { serviceID := "urn:upnp-org:serviceId:ConnectionManager",
    actionName := "Play", devUDN := "uuid:gmrender-1", socket := 7,
    actionResult := none, errCode := 0, errStr := none }

/-- A concrete subscription request for `svcW`. -/
def subW : SubscriptionRequest :=
  { serviceId := "urn:upnp-org:serviceId:RenderingControl",
    udn := "uuid:gmrender-1", sid := "uuid:subscription-1" }

/-- A concrete action event whose status already records an error. -/
def erroredEventW : ActionEvent :=
  { request := arW "Play", status := -1, service := svcW }

/-- An engine environment whose `UpnpInit2` fails on every attempt. -/
def envAllFailW : EngineEnv :=
  { upnpInit2 := fun _ => false, enableWebserverOk := true,
    registerCallbacksOk := true, addVirtualDirOk := true,
    registerRootDeviceOk := true, sendAdvertisementOk := true }

/- ---------------------------------------------------------------- -/
/- C10: errors are sticky in upnp_add_response.                      -/
/- ---------------------------------------------------------------- -/

/-- C10: for every call to `upnp_add_response` on an action event whose
status flag already records an error (nonzero), the call returns -1 and
leaves the event — action result document, error code and error string —
entirely unchanged. -/
theorem upnp_add_response_error_sticky (event : ActionEvent)
    (key value : String) (engineFail : Option String)
    (h : event.status ≠ 0) :
    upnp_add_response event key value engineFail = (event, -1) := by
  simp [upnp_add_response, h]

/-- Witness for C10 at a concrete errored event. -/
theorem upnp_add_response_error_sticky_witness :
    erroredEventW.status ≠ 0 ∧
      upnp_add_response erroredEventW "CurrentVolume" "10" none =
        (erroredEventW, -1) :=
  ⟨by decide,
   upnp_add_response_error_sticky erroredEventW "CurrentVolume" "10" none
     (by decide)⟩

/- ---------------------------------------------------------------- -/
/- C4: variable query.                                               -/
/- ---------------------------------------------------------------- -/

/-- C4: a variable query on an unknown service fails with the
invalid-arguments code 402 and touches nothing else; on a known
service, a store entry with the requested name yields its current value
with the success code, and an absent name yields the invalid-variable
code 404 with no value set; absence of a match is exactly "no variable
in the store has that name". -/
theorem handle_var_request_cases (priv : DeviceDescriptor)
    (event : StateVarRequest) :
    (find_service priv event.serviceID = none →
       handle_var_request priv event =
         ({ event with errCode := UPNP_SOAP_E_INVALID_ARGS }, -1)) ∧
    (∀ srv nv, find_service priv event.serviceID = some srv →
       srv.variable_container.find?
           (fun p => p.1 == event.stateVarName) = some nv →
       handle_var_request priv event =
         ({ event with
              currentVal := some nv.snd,
              errCode := UPNP_E_SUCCESS }, 0)) ∧
    (∀ srv, find_service priv event.serviceID = some srv →
       srv.variable_container.find?
           (fun p => p.1 == event.stateVarName) = none →
       handle_var_request priv event =
         ({ event with
              currentVal := none,
              errCode := UPNP_SOAP_E_INVALID_VAR }, 0)) ∧
    (∀ srv, find_service priv event.serviceID = some srv →
       (srv.variable_container.find?
           (fun p => p.1 == event.stateVarName) = none ↔
         ∀ nv ∈ srv.variable_container, nv.1 ≠ event.stateVarName)) := by
  refine ⟨?_, ?_, ?_, ?_⟩
  · intro h
    simp [handle_var_request, h]
  · intro srv nv hs hf
    simp [handle_var_request, hs, hf]
  · intro srv hs hf
    simp [handle_var_request, hs, hf]
  · intro srv _
    rw [List.find?_eq_none]
    constructor
    · intro h nv hm
      have := h nv hm
      simpa using this
    · intro h nv hm
      simpa using h nv hm

/-- Witness for C4: querying "Volume" on the concrete device yields its
value "10" with the success code. -/
theorem handle_var_request_cases_witness :
    handle_var_request devW
        { serviceID := "urn:upnp-org:serviceId:RenderingControl",
          stateVarName := "Volume", errCode := 0, currentVal := none } =
      ({ serviceID := "urn:upnp-org:serviceId:RenderingControl",
         stateVarName := "Volume", errCode := UPNP_E_SUCCESS,
         currentVal := some "10" }, 0) := by
  have h := (handle_var_request_cases devW
    { serviceID := "urn:upnp-org:serviceId:RenderingControl",
      stateVarName := "Volume", errCode := 0, currentVal := none }).2.1
    svcW ("Volume", "10") (by decide) (by decide)
  simpa using h

/- ---------------------------------------------------------------- -/
/- C2: unknown service.                                              -/
/- ---------------------------------------------------------------- -/

/-- C2 counterexample: an unknown service id is rejected with error
code 401, the very same code the dispatcher uses for an unknown action
on a known service (shown side by side), and the logged condition is
"Unknown action" — there is no distinct unrecognized-service code. -/
theorem unknown_service_code_equals_unknown_action_code :
    (handle_action_request devW arNoSvcW).request.errCode = 401 ∧
    (handle_action_request devW (arW "NoSuchAction")).request.errCode
      = 401 ∧
    (handle_action_request devW arNoSvcW).request.errCode =
      (handle_action_request devW (arW "NoSuchAction")).request.errCode ∧
    (handle_action_request devW arNoSvcW).logs =
      [LogEntry.unknownAction "Play"
        "urn:upnp-org:serviceId:ConnectionManager"] := by
  decide

/-- C2 (amended): for every action invocation whose service id matches
no registered service, dispatch fails (returns -1) with error code 401 —
the same code as the unknown-action fault — with a cleared response
document, no handler invocation, no collector window, and no Variable
Store access (the whole dispatch is the unknown-action error result). -/
theorem unknown_service_rejected (priv : DeviceDescriptor)
    (ar_event : ActionRequest)
    (h : find_service priv ar_event.serviceID = none) :
    handle_action_request priv ar_event = unknown_action_result ar_event ∧
    (handle_action_request priv ar_event).retval = -1 ∧
    (handle_action_request priv ar_event).request.errCode = 401 ∧
    (handle_action_request priv ar_event).request.actionResult = none ∧
    (handle_action_request priv ar_event).events = [] ∧
    Ev.handlerInvoked ∉ (handle_action_request priv ar_event).events := by
  have hmain : handle_action_request priv ar_event =
      unknown_action_result ar_event := by
    simp [handle_action_request, h, find_action]
  refine ⟨hmain, ?_, ?_, ?_, ?_, ?_⟩ <;> rw [hmain] <;>
    simp [unknown_action_result]

/-- Witness for C2 (amended) at the concrete unknown-service request. -/
theorem unknown_service_rejected_witness :
    find_service devW arNoSvcW.serviceID = none ∧
      (handle_action_request devW arNoSvcW).retval = -1 :=
  ⟨by decide, (unknown_service_rejected devW arNoSvcW (by decide)).2.1⟩

/- ---------------------------------------------------------------- -/
/- C6: known service, unknown action.                                -/
/- ---------------------------------------------------------------- -/

/-- C6: for every action invocation where the service is known but the
action name matches no action of that service, the dispatcher returns
the unsupported-action fault 401 with a cleared response document and
return value -1, invokes no handler, and opens no collection window, so
the collector depth is unchanged. -/
theorem unknown_action_fault (priv : DeviceDescriptor)
    (ar_event : ActionRequest) (srv : Service)
    (hs : find_service priv ar_event.serviceID = some srv)
    (ha : find_action (some srv) ar_event.actionName = none) :
    (handle_action_request priv ar_event).request.errCode = 401 ∧
    (handle_action_request priv ar_event).request.actionResult = none ∧
    (handle_action_request priv ar_event).retval = -1 ∧
    (handle_action_request priv ar_event).events = [] ∧
    Ev.handlerInvoked ∉ (handle_action_request priv ar_event).events ∧
    depthDelta (handle_action_request priv ar_event).events = 0 := by
  have hmain : handle_action_request priv ar_event =
      unknown_action_result ar_event := by
    simp [handle_action_request, hs, ha]
  refine ⟨?_, ?_, ?_, ?_, ?_, ?_⟩ <;> rw [hmain] <;>
    simp [unknown_action_result, depthDelta]

/-- Witness for C6 at a concrete known-service, unknown-action
request. -/
theorem unknown_action_fault_witness :
    find_service devW (arW "NoSuchAction").serviceID = some svcW ∧
      (handle_action_request devW (arW "NoSuchAction")).request.errCode
        = 401 :=
  ⟨by decide,
   (unknown_action_fault devW (arW "NoSuchAction") svcW (by decide)
     (by decide)).1⟩

/- ---------------------------------------------------------------- -/
/- C5: collector bracketing.                                         -/
/- ---------------------------------------------------------------- -/

/-- C5: for every dispatched action on a known service and known action
whose service has a change-event collector, the dispatcher calls the
collector's Start exactly once before invoking the handler and Finish
exactly once after it returns — also when no handler is bound — so the
collector's nesting depth is unchanged overall. -/
theorem collector_start_finish_bracket (priv : DeviceDescriptor)
    (ar_event : ActionRequest) (srv : Service) (act : Action)
    (hs : find_service priv ar_event.serviceID = some srv)
    (ha : find_action (some srv) ar_event.actionName = some act)
    (hc : srv.last_change = true) :
    (handle_action_request priv ar_event).events =
      [Ev.collectorStart] ++
        (match act.callback with
         | some _ => [Ev.handlerInvoked]
         | none => []) ++ [Ev.collectorFinish] ∧
    depthDelta (handle_action_request priv ar_event).events = 0 := by
  cases hcb : act.callback with
  | some ops =>
      refine ⟨?_, ?_⟩ <;>
        simp [handle_action_request, hs, ha, hcb, hc, depthDelta, evDelta]
  | none =>
      refine ⟨?_, ?_⟩ <;>
        simp [handle_action_request, hs, ha, hcb, hc, depthDelta, evDelta]

/-- Witness for C5 at the concrete "Play" action of the fixture
device. -/
theorem collector_start_finish_bracket_witness :
    (handle_action_request devW (arW "Play")).events =
      [Ev.collectorStart, Ev.handlerInvoked, Ev.collectorFinish] := by
  have h := (collector_start_finish_bracket devW (arW "Play") svcW
    { name := "Play", callback := some [] }
    (by decide) (by decide) (by decide)).1
  simpa using h

/- ---------------------------------------------------------------- -/
/- C8: known action with no bound handler.                           -/
/- ---------------------------------------------------------------- -/

/-- C8 counterexample: dispatching the concrete "Orphan" action, which
has no bound handler, finalizes with the success error code but with
NO response document attached — the action result stays absent, so the
claimed "valid empty response document present" fails. -/
theorem no_handler_no_response_document :
    (handle_action_request devW (arW "Orphan")).request.errCode =
      UPNP_E_SUCCESS ∧
    (handle_action_request devW (arW "Orphan")).request.actionResult =
      none ∧
    (handle_action_request devW (arW "Orphan")).retval = 0 := by
  decide

/-- C8 (amended): for every action invocation of a known service and
known action with no bound handler, the dispatcher logs the full
diagnostic context (error code, socket, error string, action name,
device id, service id), sets the success error code and returns 0, but
attaches no response document: the action result is left exactly as it
came in (absent for a fresh request). -/
theorem no_handler_logged_success (priv : DeviceDescriptor)
    (ar_event : ActionRequest) (srv : Service) (act : Action)
    (hs : find_service priv ar_event.serviceID = some srv)
    (ha : find_action (some srv) ar_event.actionName = some act)
    (hcb : act.callback = none) :
    (handle_action_request priv ar_event).retval = 0 ∧
    (handle_action_request priv ar_event).request.errCode =
      UPNP_E_SUCCESS ∧
    (handle_action_request priv ar_event).request.actionResult =
      ar_event.actionResult ∧
    (handle_action_request priv ar_event).request.errStr =
      ar_event.errStr ∧
    (handle_action_request priv ar_event).logs =
      [LogEntry.noHandler ar_event.errCode ar_event.socket
        ar_event.errStr ar_event.actionName ar_event.devUDN
        ar_event.serviceID] := by
  refine ⟨?_, ?_, ?_, ?_, ?_⟩ <;>
    simp [handle_action_request, hs, ha, hcb]

/-- Witness for C8 (amended): the diagnostics logged for the concrete
"Orphan" dispatch. -/
theorem no_handler_logged_success_witness :
    (handle_action_request devW (arW "Orphan")).logs =
      [LogEntry.noHandler 0 7 none "Orphan" "uuid:gmrender-1"
        "urn:upnp-org:serviceId:RenderingControl"] := by
  have h := (no_handler_logged_success devW (arW "Orphan") svcW
    { name := "Orphan", callback := none }
    (by decide) (by decide) rfl).2.2.2.2
  simpa [arW] using h

/- ---------------------------------------------------------------- -/
/- C1: handler-reported errors.                                      -/
/- ---------------------------------------------------------------- -/

/-- `upnp_add_response` never changes the status flag of the event. -/
theorem upnp_add_response_status (event : ActionEvent) (key value : String)
    (engineFail : Option String) :
    ((upnp_add_response event key value engineFail).1).status =
      event.status := by
  by_cases h : event.status = 0
  · cases engineFail <;> simp [upnp_add_response, h]
  · simp [upnp_add_response, h]

/-- One handler API call preserves the error invariant. -/
theorem handlerStep_inv (acc : ActionEvent × List LogEntry)
    (op : HandlerOp) (h : errInv acc.1) : errInv (handlerStep acc op).1 := by
  cases op with
  | addResponse key value engineFail =>
      intro hne
      have hst : acc.1.status ≠ 0 := by
        simp only [handlerStep] at hne
        rwa [upnp_add_response_status] at hne
      have hx : (handlerStep acc
          (HandlerOp.addResponse key value engineFail)).1 = acc.1 := by
        simp [handlerStep, upnp_add_response, hst]
      rw [hx]
      exact h hst
  | setError error_code msg =>
      intro _
      simp [handlerStep, upnp_set_error]

/-- A whole handler run preserves the error invariant. -/
theorem foldl_handlerStep_inv (ops : List HandlerOp) :
    ∀ acc : ActionEvent × List LogEntry, errInv acc.1 →
      errInv (ops.foldl handlerStep acc).1 := by
  induction ops with
  | nil => intro acc h; simpa using h
  | cons op rest ih => intro acc h; exact ih _ (handlerStep_inv acc op h)

/-- The error invariant for `runHandler`. -/
theorem runHandler_inv (ops : List HandlerOp) (event : ActionEvent)
    (h : errInv event) : errInv (runHandler ops event).1 :=
  foldl_handlerStep_inv ops (event, []) h

/-- A fresh dispatch context (status 0) satisfies the error invariant
vacuously. -/
theorem errInv_fresh (ar_event : ActionRequest) (srv : Service) :
    errInv { request := ar_event, status := 0, service := srv } := by
  intro h
  simp at h

/-- C1 counterexample: a handler reports error code 714 through
`upnp_set_error`; the finalized response carries the fixed code 501,
not the handler-supplied 714 (which reaches only the log), and the
response document is not left cleared: a synthesized empty document is
attached at finalization. -/
theorem handler_error_code_not_preserved :
    (handle_action_request devW (arW "Fail")).request.errCode = 501 ∧
    (handle_action_request devW (arW "Fail")).request.errCode ≠ 714 ∧
    (handle_action_request devW (arW "Fail")).request.errStr =
      some "no media" ∧
    (handle_action_request devW (arW "Fail")).request.actionResult =
      some { actionName := "Fail",
             serviceType :=
               "urn:schemas-upnp-org:service:RenderingControl:1",
             args := [] } ∧
    (handle_action_request devW (arW "Fail")).logs =
      [LogEntry.setErrorLog "no media" 714] := by
  decide

/-- C1 (amended): for every action invocation whose handler runs and
sets the error status (through `upnp_set_error`), the finalized
response carries the fixed action-failed code 501 — the handler's own
error-code argument is only logged — together with the handler-supplied
message; the error cleared the response document and later additions
were no-ops, and finalization attaches a synthesized zero-argument
response document, so the result never pairs an argument-carrying
response document with an error code. -/
theorem handler_error_final_response (priv : DeviceDescriptor)
    (ar_event : ActionRequest) (srv : Service) (act : Action)
    (ops : List HandlerOp)
    (hs : find_service priv ar_event.serviceID = some srv)
    (ha : find_action (some srv) ar_event.actionName = some act)
    (hcb : act.callback = some ops)
    (herr : (runHandler ops
        { request := ar_event, status := 0, service := srv }).1.status
        ≠ 0) :
    (handle_action_request priv ar_event).request.errCode =
      UPNP_SOAP_E_ACTION_FAILED ∧
    (handle_action_request priv ar_event).request.errStr =
      (runHandler ops
        { request := ar_event, status := 0,
          service := srv }).1.request.errStr ∧
    (handle_action_request priv ar_event).request.actionResult =
      some { actionName := ar_event.actionName,
             serviceType := srv.service_type, args := [] } := by
  obtain ⟨hres, hcode⟩ :=
    runHandler_inv ops { request := ar_event, status := 0, service := srv }
      (errInv_fresh ar_event srv) herr
  refine ⟨?_, ?_, ?_⟩ <;>
    simp [handle_action_request, hs, ha, hcb, herr, hres, hcode]

/-- Witness for C1 (amended) at the concrete "Fail" action. -/
theorem handler_error_final_response_witness :
    (handle_action_request devW (arW "Fail")).request.errCode =
      UPNP_SOAP_E_ACTION_FAILED :=
  (handler_error_final_response devW (arW "Fail") svcW
    { name := "Fail", callback := some [HandlerOp.setError 714 "no media"] }
    [HandlerOp.setError 714 "no media"]
    (by decide) (by decide) rfl (by decide)).1

/- ---------------------------------------------------------------- -/
/- C3: subscription snapshot.                                        -/
/- ---------------------------------------------------------------- -/

/-- C3: for every subscription request on a known service, the
initial-state snapshot contains exactly the variables whose name is not
"LastChange" and does not start with "A_ARG_TYPE_" (with the concrete
example of the spec evaluated), and the subscription is accepted
declaring exactly one evented variable, "LastChange", whose initial
value is the escaped aggregated document built from that snapshot; the
dispatch succeeds exactly when the engine accepts. -/
theorem subscription_snapshot_exact
    (toXML : List (String × String) → String) (esc : String → String)
    (priv : DeviceDescriptor) (sr : SubscriptionRequest) (engineRC : Int)
    (srv : Service) (hs : find_service priv sr.serviceId = some srv) :
    (handle_subscription_request toXML esc priv sr engineRC).1 =
      some { udn := sr.udn, serviceId := sr.serviceId,
             varNames := ["LastChange"],
             varValues :=
               [esc (toXML (eventedSnapshot srv.variable_container))],
             varCount := 1, sid := sr.sid } ∧
    (∀ nv : String × String,
        nv ∈ eventedSnapshot srv.variable_container ↔
          nv ∈ srv.variable_container ∧ nv.1 ≠ "LastChange" ∧
            argTypePrefixed nv.1 = false) ∧
    ((handle_subscription_request toXML esc priv sr engineRC).2 = 0 ↔
      engineRC = UPNP_E_SUCCESS) ∧
    eventedSnapshot
        [("Volume", "10"), ("Mute", "false"), ("LastChange", ""),
         ("A_ARG_TYPE_Channel", "Master")] =
      [("Volume", "10"), ("Mute", "false")] := by
  refine ⟨?_, ?_, ?_, by decide⟩
  · simp [handle_subscription_request, hs]
  · intro nv
    simp [eventedSnapshot, List.mem_filter, and_assoc]
  · simp only [handle_subscription_request, hs]
    by_cases h : engineRC = UPNP_E_SUCCESS <;> simp [h]

/-- Witness for C3 at the concrete fixture service, with the identity
escape and a placeholder serializer. -/
theorem subscription_snapshot_exact_witness :
    (handle_subscription_request (fun kv => toString kv) (fun s => s)
        devW subW 0).1 =
      some { udn := "uuid:gmrender-1",
             serviceId := "urn:upnp-org:serviceId:RenderingControl",
             varNames := ["LastChange"],
             varValues :=
               [toString (eventedSnapshot svcW.variable_container)],
             varCount := 1, sid := "uuid:subscription-1" } :=
  (subscription_snapshot_exact (fun kv => toString kv) (fun s => s)
    devW subW 0 svcW (by decide)).1

/- ---------------------------------------------------------------- -/
/- C7: bind retry loop.                                              -/
/- ---------------------------------------------------------------- -/

/-- If every attempt the loop can still make fails, the retry loop
runs to exhaustion, producing the full alternating sleep/attempt trace
and reporting failure. -/
theorem bindRetryGo_all_fail (f : Nat → Bool) :
    ∀ fuel idx, (∀ j, j < fuel → f (idx + j) = false) →
      bindRetryGo f fuel idx false = (retryTrace fuel idx, false) := by
  intro fuel
  induction fuel with
  | zero =>
      intro idx _
      simp [bindRetryGo, retryTrace]
  | succ n ih =>
      intro idx h
      have h0 : f idx = false := by simpa using h 0 (Nat.succ_pos n)
      have hrec := ih (idx + 1) (fun j hj => by
        have harith : idx + 1 + j = idx + (j + 1) := by omega
        rw [harith]
        exact h (j + 1) (by omega))
      simp [bindRetryGo, retryTrace, h0, hrec]

/-- Whatever the engine answers, the retry loop's trace is some number
`k ≤ fuel` of rounds, each a 1000 ms sleep followed by the next
attempt. -/
theorem bindRetryGo_shape (f : Nat → Bool) :
    ∀ fuel idx rcOk, ∃ k, k ≤ fuel ∧
      (bindRetryGo f fuel idx rcOk).1 = retryTrace k idx := by
  intro fuel
  induction fuel with
  | zero =>
      intro idx rcOk
      refine ⟨0, Nat.le_refl 0, ?_⟩
      cases rcOk <;> simp [bindRetryGo, retryTrace]
  | succ n ih =>
      intro idx rcOk
      cases rcOk with
      | true =>
          exact ⟨0, Nat.zero_le _, by simp [bindRetryGo, retryTrace]⟩
      | false =>
          obtain ⟨k, hk, hsteps⟩ := ih (idx + 1) (f idx)
          exact ⟨k + 1, Nat.succ_le_succ hk,
            by simp [bindRetryGo, retryTrace, hsteps]⟩

/-- A `k`-round retry trace contains exactly `k` attempts. -/
theorem numAttempts_retryTrace :
    ∀ k idx, numAttempts (retryTrace k idx) = k := by
  intro k
  induction k with
  | zero =>
      intro idx
      simp [retryTrace, numAttempts]
  | succ n ih =>
      intro idx
      have := ih (idx + 1)
      simp [retryTrace, numAttempts, isAttempt, List.filter_cons]
        at this ⊢
      omega

/-- The retry trace never contains a root-device registration step. -/
theorem registerRootDevice_not_mem_retryTrace :
    ∀ k idx, InitStep.registerRootDevice ∉ retryTrace k idx := by
  intro k
  induction k with
  | zero =>
      intro idx
      simp [retryTrace]
  | succ n ih =>
      intro idx
      simp [retryTrace]
      exact ih (idx + 1)

/-- Attempts happen only in the bind phase: the steps after a
successful bind contain no `UpnpInit2` attempt. -/
theorem initialize_device_attempt_count (env : EngineEnv) :
    numAttempts (initialize_device env).1 =
      numAttempts (InitStep.attemptInit 0 ::
        (bindRetryGo env.upnpInit2 60 1 (env.upnpInit2 0)).1) := by
  cases h1 : (bindRetryGo env.upnpInit2 60 1 (env.upnpInit2 0)).2 <;>
  cases h2 : env.enableWebserverOk <;>
  cases h3 : env.registerCallbacksOk <;>
  cases h4 : env.addVirtualDirOk <;>
  cases h5 : env.registerRootDeviceOk <;>
  cases h6 : env.sendAdvertisementOk <;>
  simp [initialize_device, h1, h2, h3, h4, h5, h6, numAttempts,
    List.filter_append, isAttempt]

/-- C7 counterexample: with an engine whose bind always fails, the bind
is attempted 61 times in total (the initial attempt plus 60 retries),
not "up to 60 times in total", before initialization reports failure. -/
theorem bind_attempted_61_times :
    numAttempts (initialize_device envAllFailW).1 = 61 ∧
    ¬ numAttempts (initialize_device envAllFailW).1 ≤ 60 ∧
    (initialize_device envAllFailW).2 = false := by
  have h0 : envAllFailW.upnpInit2 0 = false := rfl
  have hloop : bindRetryGo envAllFailW.upnpInit2 60 1 false =
      (retryTrace 60 1, false) :=
    bindRetryGo_all_fail envAllFailW.upnpInit2 60 1 (fun _ _ => rfl)
  have hinit : initialize_device envAllFailW =
      (InitStep.attemptInit 0 :: retryTrace 60 1, false) := by
    simp only [initialize_device, h0, hloop]
    simp
  have hatt : numAttempts (initialize_device envAllFailW).1 = 61 := by
    rw [hinit]
    have := numAttempts_retryTrace 60 1
    simp [numAttempts, isAttempt, List.filter_cons] at this ⊢
    omega
  exact ⟨hatt, by omega, by rw [hinit]⟩

/-- C7 (amended): the engine bind is attempted up to 61 times in total
(one initial attempt plus up to 60 retries), with a fixed 1000 ms sleep
immediately before every attempt after the first; if all 61 allowed
attempts fail, initialization returns failure and never reaches the
root-device registration. -/
theorem initialize_device_bind_retry (env : EngineEnv) :
    (∃ k, k ≤ 60 ∧
      (InitStep.attemptInit 0 ::
          (bindRetryGo env.upnpInit2 60 1 (env.upnpInit2 0)).1) =
        InitStep.attemptInit 0 :: retryTrace k 1 ∧
      numAttempts (initialize_device env).1 = k + 1) ∧
    numAttempts (initialize_device env).1 ≤ 61 ∧
    ((∀ j, j < 61 → env.upnpInit2 j = false) →
      (initialize_device env).2 = false ∧
      numAttempts (initialize_device env).1 = 61 ∧
      InitStep.registerRootDevice ∉ (initialize_device env).1) := by
  obtain ⟨k, hk, hsteps⟩ :=
    bindRetryGo_shape env.upnpInit2 60 1 (env.upnpInit2 0)
  have hcount : numAttempts (initialize_device env).1 = k + 1 := by
    rw [initialize_device_attempt_count env, hsteps]
    have := numAttempts_retryTrace k 1
    simp [numAttempts, isAttempt, List.filter_cons] at this ⊢
    omega
  refine ⟨⟨k, hk, by rw [hsteps], hcount⟩, ?_, ?_⟩
  · rw [hcount]
    omega
  · intro hfail
    have h0 : env.upnpInit2 0 = false := hfail 0 (by omega)
    have hloop : bindRetryGo env.upnpInit2 60 1 false =
        (retryTrace 60 1, false) :=
      bindRetryGo_all_fail env.upnpInit2 60 1
        (fun j hj => hfail (1 + j) (by omega))
    have hinit : initialize_device env =
        (InitStep.attemptInit 0 :: retryTrace 60 1, false) := by
      simp [initialize_device, h0, hloop]
    refine ⟨by rw [hinit], ?_, ?_⟩
    · rw [hinit]
      have := numAttempts_retryTrace 60 1
      simp [numAttempts, isAttempt, List.filter_cons] at this ⊢
      omega
    · rw [hinit]
      simp [List.mem_cons]
      exact registerRootDevice_not_mem_retryTrace 60 1

/-- Witness for C7 (amended) at the always-failing engine. -/
theorem initialize_device_bind_retry_witness :
    (initialize_device envAllFailW).2 = false ∧
    numAttempts (initialize_device envAllFailW).1 = 61 ∧
    InitStep.registerRootDevice ∉ (initialize_device envAllFailW).1 :=
  (initialize_device_bind_retry envAllFailW).2.2 (fun _ _ => rfl)

/- ---------------------------------------------------------------- -/
/- C9: descriptor generation.                                        -/
/- ---------------------------------------------------------------- -/

/-- C9: device descriptor generation is a deterministic pure function —
identical descriptor inputs give byte-identical XML output — and the
generated tree reproduces the fixed field order exactly: root in the
device-1-0 namespace, specVersion(1, 0) first, then the device element
with deviceType, presentationURL, friendlyName, the manufacturer and
model fields, UDN, the optional iconList, and serviceList last. -/
theorem device_desc_deterministic_fixed_order
    (d1 d2 : DeviceDescriptor) (h : d1 = d2) :
    upnp_create_device_desc d1 = upnp_create_device_desc d2 ∧
    (upnp_create_device_desc_tree d1).tag = "root" ∧
    (upnp_create_device_desc_tree d1).ns =
      "urn:schemas-upnp-org:device-1-0" ∧
    (upnp_create_device_desc_tree d1).children.map XMLElem.tag =
      ["specVersion", "device"] ∧
    (upnp_create_device_desc_tree d1).children.getD 0 emptyElem =
      add_specversion 1 0 ∧
    ((upnp_create_device_desc_tree d1).children.getD 1
        emptyElem).children.map XMLElem.tag =
      ["deviceType", "presentationURL", "friendlyName", "manufacturer",
       "manufacturerURL", "modelDescription", "modelName", "modelNumber",
       "modelURL", "UDN"] ++
        (match d1.icons with
         | none => []
         | some _ => ["iconList"]) ++ ["serviceList"] := by
  subst h
  refine ⟨rfl, rfl, rfl, rfl, rfl, ?_⟩
  rcases hi : d1.icons with _ | l <;>
    simp [upnp_create_device_desc_tree, add_desc_iconlist,
      add_desc_servicelist, add_specversion, hi, XMLElem.tag,
      XMLElem.children, emptyElem]

/-- Witness for C9 at the concrete fixture descriptor. -/
theorem device_desc_deterministic_fixed_order_witness :
    upnp_create_device_desc devW = upnp_create_device_desc devW ∧
      (upnp_create_device_desc_tree devW).tag = "root" :=
  ⟨(device_desc_deterministic_fixed_order devW devW rfl).1,
   (device_desc_deterministic_fixed_order devW devW rfl).2.1⟩

end UpnpDevice
